import Mathlib

/-!
Verification of the raiden event-handler core (`raiden_event_handler.py` and
`transfer/mediated_transfer/events.py`) against its natural-language
specification.

Modelling conventions:
* Addresses, hashes, block identifiers, amounts and opaque message payloads
  are `Nat`; the 32-byte zero sentinel `EMPTY_HASH` is `0`.
* External collaborators that the handlers call (write-ahead-log storage
  queries, channel-state reconstruction, `get_batch_unlock`,
  `get_batch_unlock_gain`, the resolver, `sha256`, the message builder) are
  fields of an environment record: the handlers are pure functions of that
  environment, faithful to the control flow of the Python source.
* A handler run is summarised as a `HandlerResult`: the ordered list of
  observable effects it performed (storage lookups, chain-proxy calls, log
  lines, transport sends) together with `none` for a normal return or
  `some e` for the Python exception `e` (`RaidenUnrecoverableError`,
  `AssertionError` or `KeyError`) that aborted it; effects performed before
  the raise are kept, mirroring Python exception semantics.
-/

namespace Raiden

/-- The 32-byte zero hash sentinel from `raiden.constants`. -/
def EMPTY_HASH : Nat := 0

/-- One side of a channel, restricted to the fields the handlers read. -/
structure NettingChannelEndState where
  address : Nat
  onchain_locksroot : Nat
  deriving DecidableEq

/-- A channel state: the two end states. -/
structure NettingChannelState where
  our_state : NettingChannelEndState
  partner_state : NettingChannelEndState
  deriving DecidableEq

/-- The balance-proof fields the settle handler extracts from a record. -/
structure BalanceProof where
  transferred_amount : Nat
  locked_amount : Nat
  locksroot : Nat
  deriving DecidableEq

/-- A history record returned by the storage queries: a position marker into
the write-ahead log plus the balance proof stored at that position. -/
structure Record where
  state_change_identifier : Nat
  balance_proof : BalanceProof
  deriving DecidableEq

/-- Result of `get_batch_unlock_gain` on a reconstructed channel state. -/
structure UnlockGain where
  from_our_locks : Nat
  from_partner_locks : Nat
  deriving DecidableEq

/-- The exceptions a handler can raise. -/
inductive RaidenErr
  | unrecoverableError
  | assertionError
  | keyError
  deriving DecidableEq

/-- Trace of one handler run: effects in order, and the exception that
aborted it, if any. -/
structure HandlerResult (ε : Type) where
  effects : List ε
  error : Option RaidenErr
  deriving DecidableEq

/-- Observable effects of the batch-unlock handler. -/
inductive UnlockEffect
  | lookupStateChangeByLocksroot (locksroot sender : Nat)
  | lookupEventByLocksroot (locksroot recipient : Nat)
  | proxyUnlock (sender receiver : Nat) (merkle_tree_locks : List Nat)
      (given_block_identifier : Nat)
  | warningLog
  deriving DecidableEq

/-- The `ContractSendChannelBatchUnlock` intent fields the handler reads. -/
structure ContractSendChannelBatchUnlock where
  token_network_address : Nat
  channel_identifier : Nat
  sender : Nat
  triggered_by_block_hash : Nat
  deriving DecidableEq

/-- Environment of the batch-unlock handler: the write-ahead log flag, the
live channel state for the intent's (token network, partner) pair, and the
external collaborators the handler calls. -/
structure UnlockEnv where
  wal_set : Bool
  channel_state : Option NettingChannelState
  get_state_change_with_balance_proof_by_locksroot : Nat → Nat → Option Record
  get_event_with_balance_proof_by_locksroot : Nat → Nat → Option Record
  channel_state_until_state_change : Nat → Option NettingChannelState
  get_batch_unlock : NettingChannelEndState → List Nat
  get_batch_unlock_gain : NettingChannelState → UnlockGain

/-- The module-level `unlock` helper: computes the batch-unlock lock list of
`end_state`, asserts it is non-empty, and calls the chain proxy. -/
def unlock (get_batch_unlock : NettingChannelEndState → List Nat)
    (end_state : NettingChannelEndState) (sender receiver : Nat)
    (given_block_identifier : Nat) : HandlerResult UnlockEffect :=
  let merkle_tree_locks := get_batch_unlock end_state
  if merkle_tree_locks = [] then ⟨[], some RaidenErr.assertionError⟩
  else ⟨[UnlockEffect.proxyUnlock sender receiver merkle_tree_locks given_block_identifier],
    none⟩

/-- The `search_state_changes` block of `handle_contract_send_channelunlock`:
partner's locks, which we may claim. -/
def unlock_partner_side (env : UnlockEnv) (ev : ContractSendChannelBatchUnlock)
    (channel_state : NettingChannelState) : HandlerResult UnlockEffect :=
  let partner_address := channel_state.partner_state.address
  let our_address := channel_state.our_state.address
  let partner_locksroot := channel_state.partner_state.onchain_locksroot
  let look := UnlockEffect.lookupStateChangeByLocksroot partner_locksroot partner_address
  match env.get_state_change_with_balance_proof_by_locksroot partner_locksroot
      partner_address with
  | none => ⟨[look], some RaidenErr.unrecoverableError⟩
  | some state_change_record =>
    match env.channel_state_until_state_change
        state_change_record.state_change_identifier with
    | none => ⟨[look], some RaidenErr.assertionError⟩
    | some restored_channel_state =>
      let gain := env.get_batch_unlock_gain restored_channel_state
      if restored_channel_state.partner_state.address = ev.sender ∧
          gain.from_partner_locks = 0 then
        ⟨[look], none⟩
      else
        let r := unlock env.get_batch_unlock restored_channel_state.partner_state
          partner_address our_address ev.triggered_by_block_hash
        ⟨look :: r.effects, r.error⟩

/-- The `search_events` block of `handle_contract_send_channelunlock`:
our locks, unlocked on the partner's behalf. -/
def unlock_our_side (env : UnlockEnv) (ev : ContractSendChannelBatchUnlock)
    (channel_state : NettingChannelState) : HandlerResult UnlockEffect :=
  let partner_address := channel_state.partner_state.address
  let our_address := channel_state.our_state.address
  let our_locksroot := channel_state.our_state.onchain_locksroot
  let look := UnlockEffect.lookupEventByLocksroot our_locksroot partner_address
  match env.get_event_with_balance_proof_by_locksroot our_locksroot partner_address with
  | none => ⟨[look], some RaidenErr.unrecoverableError⟩
  | some event_record =>
    match env.channel_state_until_state_change event_record.state_change_identifier with
    | none => ⟨[look], some RaidenErr.assertionError⟩
    | some restored_channel_state =>
      let gain := env.get_batch_unlock_gain restored_channel_state
      if restored_channel_state.our_state.address = ev.sender ∧
          gain.from_our_locks = 0 then
        ⟨[look], none⟩
      else
        let r := unlock env.get_batch_unlock restored_channel_state.our_state
          our_address partner_address ev.triggered_by_block_hash
        ⟨look :: r.effects, r.error⟩

/-- `RaidenEventHandler.handle_contract_send_channelunlock`. -/
def handle_contract_send_channelunlock (env : UnlockEnv)
    (ev : ContractSendChannelBatchUnlock) : HandlerResult UnlockEffect :=
  if env.wal_set = false then ⟨[], some RaidenErr.assertionError⟩
  else
    match env.channel_state with
    | none => ⟨[], some RaidenErr.unrecoverableError⟩
    | some channel_state =>
      let our_locksroot := channel_state.our_state.onchain_locksroot
      let partner_locksroot := channel_state.partner_state.onchain_locksroot
      let search_events := our_locksroot ≠ EMPTY_HASH
      let search_state_changes := partner_locksroot ≠ EMPTY_HASH
      if ¬ search_events ∧ ¬ search_state_changes then
        ⟨[UnlockEffect.warningLog], none⟩
      else
        let r1 := if search_state_changes then unlock_partner_side env ev channel_state
          else ⟨[], none⟩
        match r1.error with
        | some e => ⟨r1.effects, some e⟩
        | none =>
          let r2 := if search_events then unlock_our_side env ev channel_state
            else ⟨[], none⟩
          ⟨r1.effects ++ r2.effects, r2.error⟩

/-- `true` exactly on chain-proxy unlock call effects. -/
def isProxyUnlock : UnlockEffect → Bool
  | UnlockEffect.proxyUnlock _ _ _ _ => true
  | _ => false

/-- `true` exactly on chain-proxy unlock call effects with the given sender. -/
def isProxyUnlockFrom (sender : Nat) : UnlockEffect → Bool
  | UnlockEffect.proxyUnlock s _ _ _ => s == sender
  | _ => false

/-- Concrete batch-unlock intent used by the witnesses. -/
def evFixture : ContractSendChannelBatchUnlock := ⟨10, 11, 2, 99⟩

/-- Live channel state: our side (address 1) already cleared on-chain,
partner side (address 2) still committed to locksroot 5. -/
def csLive : NettingChannelState := ⟨⟨1, 0⟩, ⟨2, 5⟩⟩

/-- Live channel state with both on-chain locksroots non-empty. -/
def csLiveBoth : NettingChannelState := ⟨⟨1, 4⟩, ⟨2, 5⟩⟩

/-- Live channel state with both on-chain locksroots empty. -/
def csLiveEmptyBoth : NettingChannelState := ⟨⟨1, 0⟩, ⟨2, 0⟩⟩

/-- Reconstructed snapshot: its partner end state carries address 3,
different from the live participant 2, so no skip applies. -/
def csRestored : NettingChannelState := ⟨⟨1, 0⟩, ⟨3, 5⟩⟩

/-- A fully populated environment in which every lookup succeeds. -/
def envGood : UnlockEnv :=
  { wal_set := true
    channel_state := some csLiveBoth
    get_state_change_with_balance_proof_by_locksroot := fun _ _ => some ⟨7, ⟨0, 0, 0⟩⟩
    get_event_with_balance_proof_by_locksroot := fun _ _ => some ⟨8, ⟨0, 0, 0⟩⟩
    channel_state_until_state_change := fun _ => some csRestored
    get_batch_unlock := fun es => [es.address]
    get_batch_unlock_gain := fun _ => ⟨1, 1⟩ }

/-- Like `envGood` but both live on-chain locksroots are already empty. -/
def envEmptyBoth : UnlockEnv := { envGood with channel_state := some csLiveEmptyBoth }

/-- Like `envGood` over `csLive` but every reconstructed lock set is empty. -/
def envEmptyLocks : UnlockEnv :=
  { envGood with channel_state := some csLive, get_batch_unlock := fun _ => [] }

/-- Like `envGood` over `csLive` but the state-change lookup finds nothing. -/
def envNoStateChange : UnlockEnv :=
  { envGood with
    channel_state := some csLive
    get_state_change_with_balance_proof_by_locksroot := fun _ _ => none }

/-- Like `envGood` but the event lookup finds nothing. -/
def envNoEvent : UnlockEnv :=
  { envGood with get_event_with_balance_proof_by_locksroot := fun _ _ => none }

/-- Environment whose live channel state is missing. -/
def envNoChannel : UnlockEnv := { envGood with channel_state := none }

/-- On-chain participant details as returned by `detail_participants`. -/
structure ParticipantDetails where
  address : Nat
  deposit : Nat
  withdrawn : Nat
  is_closer : Bool
  balance_hash : Nat
  nonce : Nat
  locksroot : Nat
  locked_amount : Nat
  deriving DecidableEq

/-- The pair of participant details for one channel. -/
structure ParticipantsDetails where
  our_details : ParticipantDetails
  partner_details : ParticipantDetails
  deriving DecidableEq

/-- The `ContractSendChannelSettle` intent fields the handler reads. -/
structure ContractSendChannelSettle where
  token_network_address : Nat
  channel_identifier : Nat
  triggered_by_block_hash : Nat
  deriving DecidableEq

/-- Observable effects of the settle handler. -/
inductive SettleEffect
  | lookupEventByBalanceHash (balance_hash : Nat)
  | lookupStateChangeByBalanceHash (balance_hash sender : Nat)
  | criticalLog
  | proxySettle (transferred_amount locked_amount locksroot
      partner_transferred_amount partner_locked_amount partner_locksroot
      block_identifier : Nat)
  deriving DecidableEq

/-- Environment of the settle handler. -/
structure SettleEnv where
  wal_set : Bool
  can_query_state_for_block : Nat → Bool
  blockhash_latest : Nat
  detail_participants : Nat → ParticipantsDetails
  get_event_with_balance_proof_by_balance_hash : Nat → Option Record
  get_state_change_with_balance_proof_by_balance_hash : Nat → Nat → Option Record

/-- The partner half of `handle_contract_send_channelsettle`: given the
effects and the `(transferred_amount, locked_amount, locksroot)` triple
already determined for our side, resolve the partner side and issue the
settle call. -/
def settle_partner_side (env : SettleEnv) (triggered_by_block_hash : Nat)
    (partner_details : ParticipantDetails) (acc : List SettleEffect)
    (our_transferred_amount our_locked_amount our_locksroot : Nat) :
    HandlerResult SettleEffect :=
  if partner_details.balance_hash ≠ EMPTY_HASH then
    match env.get_state_change_with_balance_proof_by_balance_hash
        partner_details.balance_hash partner_details.address with
    | none =>
      ⟨acc ++ [SettleEffect.lookupStateChangeByBalanceHash
          partner_details.balance_hash partner_details.address,
        SettleEffect.criticalLog], some RaidenErr.unrecoverableError⟩
    | some state_change_record =>
      let partner_balance_proof := state_change_record.balance_proof
      ⟨acc ++ [SettleEffect.lookupStateChangeByBalanceHash
          partner_details.balance_hash partner_details.address,
        SettleEffect.proxySettle our_transferred_amount our_locked_amount
          our_locksroot partner_balance_proof.transferred_amount
          partner_balance_proof.locked_amount partner_balance_proof.locksroot
          triggered_by_block_hash], none⟩
  else
    ⟨acc ++ [SettleEffect.proxySettle our_transferred_amount our_locked_amount
      our_locksroot 0 0 EMPTY_HASH triggered_by_block_hash], none⟩

/-- `RaidenEventHandler.handle_contract_send_channelsettle`. -/
def handle_contract_send_channelsettle (env : SettleEnv)
    (ev : ContractSendChannelSettle) : HandlerResult SettleEffect :=
  if env.wal_set = false then ⟨[], some RaidenErr.assertionError⟩
  else
    let triggered_by_block_hash :=
      if env.can_query_state_for_block ev.triggered_by_block_hash then
        ev.triggered_by_block_hash
      else env.blockhash_latest
    let pd := env.detail_participants triggered_by_block_hash
    let our_details := pd.our_details
    let partner_details := pd.partner_details
    if our_details.balance_hash ≠ EMPTY_HASH then
      match env.get_event_with_balance_proof_by_balance_hash
          our_details.balance_hash with
      | none =>
        ⟨[SettleEffect.lookupEventByBalanceHash our_details.balance_hash,
          SettleEffect.criticalLog], some RaidenErr.unrecoverableError⟩
      | some event_record =>
        let our_balance_proof := event_record.balance_proof
        settle_partner_side env triggered_by_block_hash partner_details
          [SettleEffect.lookupEventByBalanceHash our_details.balance_hash]
          our_balance_proof.transferred_amount our_balance_proof.locked_amount
          our_balance_proof.locksroot
    else
      settle_partner_side env triggered_by_block_hash partner_details []
        0 0 EMPTY_HASH

/-- `true` exactly on the settle handler's chain-proxy settle effects. -/
def isProxySettle : SettleEffect → Bool
  | SettleEffect.proxySettle _ _ _ _ _ _ _ => true
  | _ => false

/-- `true` exactly on our-side balance-hash lookups. -/
def isLookupEventByBalanceHash : SettleEffect → Bool
  | SettleEffect.lookupEventByBalanceHash _ => true
  | _ => false

/-- `true` exactly on partner-side balance-hash lookups. -/
def isLookupStateChangeByBalanceHash : SettleEffect → Bool
  | SettleEffect.lookupStateChangeByBalanceHash _ _ => true
  | _ => false

/-- Concrete settle intent used by the witnesses. -/
def svEv : ContractSendChannelSettle := ⟨10, 11, 99⟩

/-- Settle environment where both sides have non-empty on-chain balance
hashes (3 and 4) and both history lookups succeed. -/
def senvBoth : SettleEnv :=
  { wal_set := true
    can_query_state_for_block := fun _ => true
    blockhash_latest := 50
    detail_participants := fun _ =>
      ⟨⟨1, 0, 0, false, 3, 0, 0, 0⟩, ⟨2, 0, 0, false, 4, 0, 0, 0⟩⟩
    get_event_with_balance_proof_by_balance_hash := fun _ => some ⟨0, ⟨10, 20, 30⟩⟩
    get_state_change_with_balance_proof_by_balance_hash := fun _ _ =>
      some ⟨0, ⟨11, 21, 31⟩⟩ }

/-- Settle environment where both sides' on-chain balance hashes are empty. -/
def senvEmptyBoth : SettleEnv :=
  { senvBoth with
    detail_participants := fun _ =>
      ⟨⟨1, 0, 0, false, 0, 0, 0, 0⟩, ⟨2, 0, 0, false, 0, 0, 0, 0⟩⟩ }

/-- The concrete variants of the intent union dispatched by
`RaidenEventHandler.on_raiden_event`, the uneventful markers, and the two
variants of the repository's event union that fall in neither set. -/
inductive EventType
  | sendLockExpired
  | sendLockedTransfer
  | sendSecretReveal
  | sendBalanceProof
  | sendSecretRequest
  | sendRefundTransfer
  | sendProcessed
  | eventPaymentSentSuccess
  | eventPaymentSentFailed
  | eventUnlockFailed
  | contractSendSecretReveal
  | contractSendChannelClose
  | contractSendChannelUpdateTransfer
  | contractSendChannelBatchUnlock
  | contractSendChannelSettle
  | eventPaymentReceivedSuccess
  | eventUnlockSuccess
  | eventUnlockClaimFailed
  | eventUnlockClaimSuccess
  | eventInvalidReceivedLockedTransfer
  | eventInvalidReceivedLockExpired
  | eventInvalidReceivedTransferRefund
  | eventInvalidReceivedUnlock
  | eventRouteFailed
  | eventUnexpectedSecretReveal
  deriving DecidableEq, Fintype

/-- The handler methods of `RaidenEventHandler`. -/
inductive HandlerTag
  | send_lockexpired
  | send_lockedtransfer
  | send_secretreveal
  | send_balanceproof
  | send_secretrequest
  | send_refundtransfer
  | send_processed
  | paymentsentsuccess
  | paymentsentfailed
  | unlockfailed
  | contract_send_secretreveal
  | contract_send_channelclose
  | contract_send_channelupdate
  | contract_send_channelunlock
  | contract_send_channelsettle
  deriving DecidableEq, Fintype

/-- The `elif` chain of `on_raiden_event`, in source order: each entry is a
`type(event) == X` guard paired with the handler it calls. -/
def dispatch_table : List (EventType × HandlerTag) :=
  [(EventType.sendLockExpired, HandlerTag.send_lockexpired),
   (EventType.sendLockedTransfer, HandlerTag.send_lockedtransfer),
   (EventType.sendSecretReveal, HandlerTag.send_secretreveal),
   (EventType.sendBalanceProof, HandlerTag.send_balanceproof),
   (EventType.sendSecretRequest, HandlerTag.send_secretrequest),
   (EventType.sendRefundTransfer, HandlerTag.send_refundtransfer),
   (EventType.sendProcessed, HandlerTag.send_processed),
   (EventType.eventPaymentSentSuccess, HandlerTag.paymentsentsuccess),
   (EventType.eventPaymentSentFailed, HandlerTag.paymentsentfailed),
   (EventType.eventUnlockFailed, HandlerTag.unlockfailed),
   (EventType.contractSendSecretReveal, HandlerTag.contract_send_secretreveal),
   (EventType.contractSendChannelClose, HandlerTag.contract_send_channelclose),
   (EventType.contractSendChannelUpdateTransfer, HandlerTag.contract_send_channelupdate),
   (EventType.contractSendChannelBatchUnlock, HandlerTag.contract_send_channelunlock),
   (EventType.contractSendChannelSettle, HandlerTag.contract_send_channelsettle)]

/-- The `UNEVENTFUL_EVENTS` tuple. -/
def UNEVENTFUL_EVENTS : List EventType :=
  [EventType.eventPaymentReceivedSuccess,
   EventType.eventUnlockSuccess,
   EventType.eventUnlockClaimFailed,
   EventType.eventUnlockClaimSuccess,
   EventType.eventInvalidReceivedLockedTransfer,
   EventType.eventInvalidReceivedLockExpired,
   EventType.eventInvalidReceivedTransferRefund,
   EventType.eventInvalidReceivedUnlock]

/-- Outcome of dispatching one intent variant. -/
inductive DispatchOutcome
  | handler (t : HandlerTag)
  | uneventful
  | unknownLogged
  deriving DecidableEq

/-- `RaidenEventHandler.on_raiden_event` as a routing function: first match
in the `elif` chain wins, then the uneventful set is a silent no-op, and any
other variant is logged as an error and ignored. -/
def on_raiden_event (e : EventType) : DispatchOutcome :=
  match dispatch_table.find? (fun p => p.1 == e) with
  | some p => DispatchOutcome.handler p.2
  | none =>
    if e ∈ UNEVENTFUL_EVENTS then DispatchOutcome.uneventful
    else DispatchOutcome.unknownLogged

/-- A payment status registry, keyed by `(target, payment_identifier)`. -/
abbrev PaymentStatusRegistry : Type := List ((Nat × Nat) × Nat)

/-- Observable effects of the payment-sent handlers. -/
inductive PaymentEffect
  | paymentDoneSet (status : Nat)
  deriving DecidableEq

/-- `RaidenEventHandler.handle_paymentsentsuccess`: pops the status with no
default, so a missing entry raises `KeyError`. -/
def handle_paymentsentsuccess (targets_to_identifiers_to_statuses : PaymentStatusRegistry)
    (target payment_identifier : Nat) : HandlerResult PaymentEffect :=
  match targets_to_identifiers_to_statuses.find?
      (fun p => p.1 == (target, payment_identifier)) with
  | none => ⟨[], some RaidenErr.keyError⟩
  | some p => ⟨[PaymentEffect.paymentDoneSet p.2], none⟩

/-- `RaidenEventHandler.handle_paymentsentfailed`: pops the status with a
`None` default and only acts when a status was present. -/
def handle_paymentsentfailed (targets_to_identifiers_to_statuses : PaymentStatusRegistry)
    (target payment_identifier : Nat) : HandlerResult PaymentEffect :=
  match targets_to_identifiers_to_statuses.find?
      (fun p => p.1 == (target, payment_identifier)) with
  | none => ⟨[], none⟩
  | some p => ⟨[PaymentEffect.paymentDoneSet p.2], none⟩

/-- Observable effects of the message-intent handlers. -/
inductive MessageEffect
  | resolverQuery
  | signMessage (message : Nat)
  | send_async (queue_identifier message : Nat)
  deriving DecidableEq

/-- The `SendSecretRequest` intent fields the handler reads. -/
structure SendSecretRequest where
  queue_identifier : Nat
  payment_identifier : Nat
  amount : Nat
  expiration : Nat
  secrethash : Nat
  deriving DecidableEq

/-- `RaidenEventHandler.handle_send_secretrequest`: consult the resolver
first; when it reports the secret as handled send nothing, otherwise build,
sign and send exactly one secret-request message. -/
def handle_send_secretrequest (reveal_secret_with_resolver : Bool)
    (message_from_sendevent : SendSecretRequest → Nat)
    (secret_request_event : SendSecretRequest) : List MessageEffect :=
  MessageEffect.resolverQuery ::
    (if reveal_secret_with_resolver then []
     else
       let secret_request_message := message_from_sendevent secret_request_event
       [MessageEffect.signMessage secret_request_message,
        MessageEffect.send_async secret_request_event.queue_identifier
          secret_request_message])

/-- `true` exactly on transport send effects. -/
def isSendAsync : MessageEffect → Bool
  | MessageEffect.send_async _ _ => true
  | _ => false

/-- The `SendSecretReveal` event: base `SendMessageEvent` fields plus the
secret and the secrethash slot overwritten by `post_init`. -/
structure SendSecretReveal where
  recipient : Nat
  channel_identifier : Nat
  message_identifier : Nat
  secret : List Nat
  secrethash : Nat

/-- `SendSecretReveal.__post_init__`: overwrite `secrethash` with the sha256
digest of `secret`. -/
def SendSecretReveal.post_init (sha256 : List Nat → Nat)
    (e : SendSecretReveal) : SendSecretReveal :=
  { e with secrethash := sha256 e.secret }

/-- Dataclass construction of `SendSecretReveal`: field assignment followed
by `__post_init__`. -/
def mkSendSecretReveal (sha256 : List Nat → Nat)
    (recipient channel_identifier message_identifier : Nat)
    (secret : List Nat) (secrethash : Nat) : SendSecretReveal :=
  SendSecretReveal.post_init sha256
    ⟨recipient, channel_identifier, message_identifier, secret, secrethash⟩

/-- The `SendBalanceProof` event fields. -/
structure SendBalanceProof where
  recipient : Nat
  channel_identifier : Nat
  message_identifier : Nat
  payment_identifier : Nat
  token_address : Nat
  balance_proof : BalanceProof
  secret : List Nat
  secrethash : Nat

/-- `SendBalanceProof.__post_init__`: overwrite `secrethash` with the sha256
digest of `secret`. -/
def SendBalanceProof.post_init (sha256 : List Nat → Nat)
    (e : SendBalanceProof) : SendBalanceProof :=
  { e with secrethash := sha256 e.secret }

/-- Dataclass construction of `SendBalanceProof`: field assignment followed
by `__post_init__`. -/
def mkSendBalanceProof (sha256 : List Nat → Nat)
    (recipient channel_identifier message_identifier payment_identifier
      token_address : Nat) (balance_proof : BalanceProof)
    (secret : List Nat) (secrethash : Nat) : SendBalanceProof :=
  SendBalanceProof.post_init sha256
    ⟨recipient, channel_identifier, message_identifier, payment_identifier,
      token_address, balance_proof, secret, secrethash⟩

theorem unlock_partner_side_spec (env : UnlockEnv)
    (ev : ContractSendChannelBatchUnlock) (cs : NettingChannelState)
    (s r : Nat) (locks : List Nat) (blk : Nat)
    (hmem : UnlockEffect.proxyUnlock s r locks blk ∈
      (unlock_partner_side env ev cs).effects) :
    s = cs.partner_state.address ∧ r = cs.our_state.address ∧
    blk = ev.triggered_by_block_hash ∧ locks ≠ [] ∧
    ∃ rec restored,
      env.get_state_change_with_balance_proof_by_locksroot
        cs.partner_state.onchain_locksroot cs.partner_state.address = some rec ∧
      env.channel_state_until_state_change rec.state_change_identifier =
        some restored ∧
      locks = env.get_batch_unlock restored.partner_state := by
  cases hlk : env.get_state_change_with_balance_proof_by_locksroot
      cs.partner_state.onchain_locksroot cs.partner_state.address with
  | none =>
    simp [unlock_partner_side, hlk] at hmem
  | some rec =>
    cases hre : env.channel_state_until_state_change rec.state_change_identifier with
    | none =>
      simp [unlock_partner_side, hlk, hre] at hmem
    | some restored =>
      by_cases hskip : restored.partner_state.address = ev.sender ∧
          (env.get_batch_unlock_gain restored).from_partner_locks = 0
      · simp [unlock_partner_side, hlk, hre, hskip] at hmem
      · by_cases hl : env.get_batch_unlock restored.partner_state = []
        · simp [unlock_partner_side, unlock, hlk, hre, hskip, hl] at hmem
        · simp [unlock_partner_side, unlock, hlk, hre, hskip, hl] at hmem
          obtain ⟨hs, hr2, hlocks, hblk⟩ := hmem
          exact ⟨hs, hr2, hblk, by simp [hlocks, hl],
            rec, restored, rfl, hre, hlocks⟩

theorem unlock_our_side_spec (env : UnlockEnv)
    (ev : ContractSendChannelBatchUnlock) (cs : NettingChannelState)
    (s r : Nat) (locks : List Nat) (blk : Nat)
    (hmem : UnlockEffect.proxyUnlock s r locks blk ∈
      (unlock_our_side env ev cs).effects) :
    s = cs.our_state.address ∧ r = cs.partner_state.address ∧
    blk = ev.triggered_by_block_hash ∧ locks ≠ [] ∧
    ∃ rec restored,
      env.get_event_with_balance_proof_by_locksroot
        cs.our_state.onchain_locksroot cs.partner_state.address = some rec ∧
      env.channel_state_until_state_change rec.state_change_identifier =
        some restored ∧
      locks = env.get_batch_unlock restored.our_state := by
  cases hlk : env.get_event_with_balance_proof_by_locksroot
      cs.our_state.onchain_locksroot cs.partner_state.address with
  | none =>
    simp [unlock_our_side, hlk] at hmem
  | some rec =>
    cases hre : env.channel_state_until_state_change rec.state_change_identifier with
    | none =>
      simp [unlock_our_side, hlk, hre] at hmem
    | some restored =>
      by_cases hskip : restored.our_state.address = ev.sender ∧
          (env.get_batch_unlock_gain restored).from_our_locks = 0
      · simp [unlock_our_side, hlk, hre, hskip] at hmem
      · by_cases hl : env.get_batch_unlock restored.our_state = []
        · simp [unlock_our_side, unlock, hlk, hre, hskip, hl] at hmem
        · simp [unlock_our_side, unlock, hlk, hre, hskip, hl] at hmem
          obtain ⟨hs, hr2, hlocks, hblk⟩ := hmem
          exact ⟨hs, hr2, hblk, by simp [hlocks, hl],
            rec, restored, rfl, hre, hlocks⟩

theorem handle_channelunlock_wal_unset (env : UnlockEnv)
    (ev : ContractSendChannelBatchUnlock) (hw : env.wal_set = false) :
    handle_contract_send_channelunlock env ev = ⟨[], some RaidenErr.assertionError⟩ := by
  simp [handle_contract_send_channelunlock, hw]

theorem handle_channelunlock_no_channel (env : UnlockEnv)
    (ev : ContractSendChannelBatchUnlock) (hw : env.wal_set = true)
    (hcs : env.channel_state = none) :
    handle_contract_send_channelunlock env ev =
      ⟨[], some RaidenErr.unrecoverableError⟩ := by
  simp [handle_contract_send_channelunlock, hw, hcs]

theorem handle_channelunlock_warning (env : UnlockEnv)
    (ev : ContractSendChannelBatchUnlock) (cs : NettingChannelState)
    (hw : env.wal_set = true) (hcs : env.channel_state = some cs)
    (hour : cs.our_state.onchain_locksroot = EMPTY_HASH)
    (hpar : cs.partner_state.onchain_locksroot = EMPTY_HASH) :
    handle_contract_send_channelunlock env ev =
      ⟨[UnlockEffect.warningLog], none⟩ := by
  simp [handle_contract_send_channelunlock, hw, hcs, hour, hpar]

theorem handle_channelunlock_partner_empty (env : UnlockEnv)
    (ev : ContractSendChannelBatchUnlock) (cs : NettingChannelState)
    (hw : env.wal_set = true) (hcs : env.channel_state = some cs)
    (hour : cs.our_state.onchain_locksroot ≠ EMPTY_HASH)
    (hpar : cs.partner_state.onchain_locksroot = EMPTY_HASH) :
    handle_contract_send_channelunlock env ev = unlock_our_side env ev cs := by
  simp [handle_contract_send_channelunlock, hw, hcs, hour, hpar]

theorem handle_channelunlock_partner_err (env : UnlockEnv)
    (ev : ContractSendChannelBatchUnlock) (cs : NettingChannelState)
    (e : RaidenErr)
    (hw : env.wal_set = true) (hcs : env.channel_state = some cs)
    (hpar : cs.partner_state.onchain_locksroot ≠ EMPTY_HASH)
    (herr : (unlock_partner_side env ev cs).error = some e) :
    handle_contract_send_channelunlock env ev =
      ⟨(unlock_partner_side env ev cs).effects, some e⟩ := by
  simp [handle_contract_send_channelunlock, hw, hcs, hpar, herr]

theorem handle_channelunlock_both (env : UnlockEnv)
    (ev : ContractSendChannelBatchUnlock) (cs : NettingChannelState)
    (hw : env.wal_set = true) (hcs : env.channel_state = some cs)
    (hour : cs.our_state.onchain_locksroot ≠ EMPTY_HASH)
    (hpar : cs.partner_state.onchain_locksroot ≠ EMPTY_HASH)
    (herr : (unlock_partner_side env ev cs).error = none) :
    handle_contract_send_channelunlock env ev =
      ⟨(unlock_partner_side env ev cs).effects ++ (unlock_our_side env ev cs).effects,
        (unlock_our_side env ev cs).error⟩ := by
  simp [handle_contract_send_channelunlock, hw, hcs, hour, hpar, herr]

theorem handle_channelunlock_our_empty (env : UnlockEnv)
    (ev : ContractSendChannelBatchUnlock) (cs : NettingChannelState)
    (hw : env.wal_set = true) (hcs : env.channel_state = some cs)
    (hour : cs.our_state.onchain_locksroot = EMPTY_HASH)
    (hpar : cs.partner_state.onchain_locksroot ≠ EMPTY_HASH)
    (herr : (unlock_partner_side env ev cs).error = none) :
    handle_contract_send_channelunlock env ev =
      ⟨(unlock_partner_side env ev cs).effects, none⟩ := by
  simp [handle_contract_send_channelunlock, hw, hcs, hour, hpar, herr]

theorem isProxyUnlockFrom_true {a : Nat} {eff : UnlockEffect}
    (h : isProxyUnlockFrom a eff = true) :
    ∃ r locks blk, eff = UnlockEffect.proxyUnlock a r locks blk := by
  cases eff with
  | proxyUnlock s r locks blk =>
    simp [isProxyUnlockFrom] at h
    exact ⟨r, locks, blk, by rw [h]⟩
  | lookupStateChangeByLocksroot lr s => simp [isProxyUnlockFrom] at h
  | lookupEventByLocksroot lr r => simp [isProxyUnlockFrom] at h
  | warningLog => simp [isProxyUnlockFrom] at h

theorem handle_channelunlock_proxy_mem (env : UnlockEnv)
    (ev : ContractSendChannelBatchUnlock) (s r : Nat) (locks : List Nat) (blk : Nat)
    (hmem : UnlockEffect.proxyUnlock s r locks blk ∈
      (handle_contract_send_channelunlock env ev).effects) :
    ∃ cs, env.channel_state = some cs ∧
      (UnlockEffect.proxyUnlock s r locks blk ∈ (unlock_partner_side env ev cs).effects ∨
       UnlockEffect.proxyUnlock s r locks blk ∈ (unlock_our_side env ev cs).effects) := by
  by_cases hw : env.wal_set = true
  · cases hcs : env.channel_state with
    | none =>
      rw [handle_channelunlock_no_channel env ev hw hcs] at hmem
      simp at hmem
    | some cs =>
      refine ⟨cs, rfl, ?_⟩
      by_cases hpar : cs.partner_state.onchain_locksroot = EMPTY_HASH
      · by_cases hour : cs.our_state.onchain_locksroot = EMPTY_HASH
        · rw [handle_channelunlock_warning env ev cs hw hcs hour hpar] at hmem
          simp at hmem
        · rw [handle_channelunlock_partner_empty env ev cs hw hcs hour hpar] at hmem
          exact Or.inr hmem
      · cases herr : (unlock_partner_side env ev cs).error with
        | some e =>
          rw [handle_channelunlock_partner_err env ev cs e hw hcs hpar herr] at hmem
          exact Or.inl hmem
        | none =>
          by_cases hour : cs.our_state.onchain_locksroot = EMPTY_HASH
          · rw [handle_channelunlock_our_empty env ev cs hw hcs hour hpar herr] at hmem
            exact Or.inl hmem
          · rw [handle_channelunlock_both env ev cs hw hcs hour hpar herr] at hmem
            rcases List.mem_append.mp hmem with h | h
            · exact Or.inl h
            · exact Or.inr h
  · have hwf : env.wal_set = false := by
      cases h : env.wal_set
      · rfl
      · exact absurd h hw
    rw [handle_channelunlock_wal_unset env ev hwf] at hmem
    simp at hmem

/-- C1: whenever the batch-unlock handler issues a chain-proxy unlock call for
a side, the lock set passed to the chain proxy is the batch-unlock lock set of
the end state of the channel snapshot reconstructed at the history record's
state-change identifier (partner end state for the partner-locks side, our
end state for the our-locks side), never the live end states. -/
theorem c1_unlock_passes_reconstructed_locks (env : UnlockEnv)
    (ev : ContractSendChannelBatchUnlock) (cs : NettingChannelState)
    (s r : Nat) (locks : List Nat) (blk : Nat)
    (hcs : env.channel_state = some cs)
    (hmem : UnlockEffect.proxyUnlock s r locks blk ∈
      (handle_contract_send_channelunlock env ev).effects) :
    (∃ rec restored,
      env.get_state_change_with_balance_proof_by_locksroot
        cs.partner_state.onchain_locksroot cs.partner_state.address = some rec ∧
      env.channel_state_until_state_change rec.state_change_identifier =
        some restored ∧
      locks = env.get_batch_unlock restored.partner_state) ∨
    (∃ rec restored,
      env.get_event_with_balance_proof_by_locksroot
        cs.our_state.onchain_locksroot cs.partner_state.address = some rec ∧
      env.channel_state_until_state_change rec.state_change_identifier =
        some restored ∧
      locks = env.get_batch_unlock restored.our_state) := by
  obtain ⟨cs2, hcs2, hside⟩ := handle_channelunlock_proxy_mem env ev s r locks blk hmem
  rw [hcs] at hcs2
  injection hcs2 with hcseq
  subst hcseq
  rcases hside with h | h
  · obtain ⟨_, _, _, _, rec, restored, h1, h2, h3⟩ :=
      unlock_partner_side_spec env ev cs s r locks blk h
    exact Or.inl ⟨rec, restored, h1, h2, h3⟩
  · obtain ⟨_, _, _, _, rec, restored, h1, h2, h3⟩ :=
      unlock_our_side_spec env ev cs s r locks blk h
    exact Or.inr ⟨rec, restored, h1, h2, h3⟩

/-- Witness for C1 at a concrete environment: the partner-side proxy call of
`envGood` carries lock set `[3]`, the one derived from the reconstructed
snapshot (whose partner end state has address 3), not from the live state. -/
theorem c1_unlock_passes_reconstructed_locks_witness :
    (∃ rec restored,
      envGood.get_state_change_with_balance_proof_by_locksroot
        csLiveBoth.partner_state.onchain_locksroot csLiveBoth.partner_state.address =
        some rec ∧
      envGood.channel_state_until_state_change rec.state_change_identifier =
        some restored ∧
      [3] = envGood.get_batch_unlock restored.partner_state) ∨
    (∃ rec restored,
      envGood.get_event_with_balance_proof_by_locksroot
        csLiveBoth.our_state.onchain_locksroot csLiveBoth.partner_state.address =
        some rec ∧
      envGood.channel_state_until_state_change rec.state_change_identifier =
        some restored ∧
      [3] = envGood.get_batch_unlock restored.our_state) :=
  c1_unlock_passes_reconstructed_locks envGood evFixture csLiveBoth 2 1 [3] 99
    rfl (by decide)

/-- C3: the zero-gain skip check is symmetric: the partner-locks side issues
no proxy unlock call exactly when the reconstructed partner end state's
address equals the live participant and the gain from partner locks is zero;
the our-locks side issues no proxy unlock call exactly when the reconstructed
our end state's address equals the live participant and the gain from our
locks is zero (given the lookups succeed and the reconstructed lock sets are
non-empty, so the non-skip path completes). -/
theorem c3_zero_gain_skip_symmetric (env : UnlockEnv)
    (ev : ContractSendChannelBatchUnlock) (cs : NettingChannelState)
    (rec1 : Record) (restored1 : NettingChannelState)
    (rec2 : Record) (restored2 : NettingChannelState)
    (h1 : env.get_state_change_with_balance_proof_by_locksroot
      cs.partner_state.onchain_locksroot cs.partner_state.address = some rec1)
    (h2 : env.channel_state_until_state_change rec1.state_change_identifier =
      some restored1)
    (h3 : env.get_batch_unlock restored1.partner_state ≠ [])
    (h4 : env.get_event_with_balance_proof_by_locksroot
      cs.our_state.onchain_locksroot cs.partner_state.address = some rec2)
    (h5 : env.channel_state_until_state_change rec2.state_change_identifier =
      some restored2)
    (h6 : env.get_batch_unlock restored2.our_state ≠ []) :
    ((unlock_partner_side env ev cs).effects.countP isProxyUnlock = 0 ↔
      (restored1.partner_state.address = ev.sender ∧
        (env.get_batch_unlock_gain restored1).from_partner_locks = 0)) ∧
    ((unlock_our_side env ev cs).effects.countP isProxyUnlock = 0 ↔
      (restored2.our_state.address = ev.sender ∧
        (env.get_batch_unlock_gain restored2).from_our_locks = 0)) := by
  constructor
  · by_cases hskip : restored1.partner_state.address = ev.sender ∧
        (env.get_batch_unlock_gain restored1).from_partner_locks = 0
    · have hbr : unlock_partner_side env ev cs =
          ⟨[UnlockEffect.lookupStateChangeByLocksroot
            cs.partner_state.onchain_locksroot cs.partner_state.address], none⟩ := by
        simp [unlock_partner_side, h1, h2, hskip]
      refine iff_of_true ?_ hskip
      rw [hbr, List.countP_eq_zero]
      intro a ha
      rw [List.mem_singleton] at ha
      subst ha
      simp [isProxyUnlock]
    · have hbr : unlock_partner_side env ev cs =
          ⟨[UnlockEffect.lookupStateChangeByLocksroot
              cs.partner_state.onchain_locksroot cs.partner_state.address,
            UnlockEffect.proxyUnlock cs.partner_state.address cs.our_state.address
              (env.get_batch_unlock restored1.partner_state)
              ev.triggered_by_block_hash], none⟩ := by
        simp [unlock_partner_side, unlock, h1, h2, hskip, h3]
      refine iff_of_false ?_ hskip
      rw [hbr, List.countP_eq_zero]
      intro hall
      have hm := hall (UnlockEffect.proxyUnlock cs.partner_state.address
        cs.our_state.address (env.get_batch_unlock restored1.partner_state)
        ev.triggered_by_block_hash) (by simp)
      simp [isProxyUnlock] at hm
  · by_cases hskip : restored2.our_state.address = ev.sender ∧
        (env.get_batch_unlock_gain restored2).from_our_locks = 0
    · have hbr : unlock_our_side env ev cs =
          ⟨[UnlockEffect.lookupEventByLocksroot
            cs.our_state.onchain_locksroot cs.partner_state.address], none⟩ := by
        simp [unlock_our_side, h4, h5, hskip]
      refine iff_of_true ?_ hskip
      rw [hbr, List.countP_eq_zero]
      intro a ha
      rw [List.mem_singleton] at ha
      subst ha
      simp [isProxyUnlock]
    · have hbr : unlock_our_side env ev cs =
          ⟨[UnlockEffect.lookupEventByLocksroot
              cs.our_state.onchain_locksroot cs.partner_state.address,
            UnlockEffect.proxyUnlock cs.our_state.address cs.partner_state.address
              (env.get_batch_unlock restored2.our_state)
              ev.triggered_by_block_hash], none⟩ := by
        simp [unlock_our_side, unlock, h4, h5, hskip, h6]
      refine iff_of_false ?_ hskip
      rw [hbr, List.countP_eq_zero]
      intro hall
      have hm := hall (UnlockEffect.proxyUnlock cs.our_state.address
        cs.partner_state.address (env.get_batch_unlock restored2.our_state)
        ev.triggered_by_block_hash) (by simp)
      simp [isProxyUnlock] at hm

/-- Witness for C3 at a concrete environment where neither skip condition
holds, so both sides issue a proxy unlock call. -/
theorem c3_zero_gain_skip_symmetric_witness :
    ((unlock_partner_side envGood evFixture csLiveBoth).effects.countP
        isProxyUnlock = 0 ↔
      (csRestored.partner_state.address = evFixture.sender ∧
        (envGood.get_batch_unlock_gain csRestored).from_partner_locks = 0)) ∧
    ((unlock_our_side envGood evFixture csLiveBoth).effects.countP
        isProxyUnlock = 0 ↔
      (csRestored.our_state.address = evFixture.sender ∧
        (envGood.get_batch_unlock_gain csRestored).from_our_locks = 0)) :=
  c3_zero_gain_skip_symmetric envGood evFixture csLiveBoth
    ⟨7, ⟨0, 0, 0⟩⟩ csRestored ⟨8, ⟨0, 0, 0⟩⟩ csRestored
    rfl rfl (by decide) rfl rfl (by decide)

/-- C4: a side whose live on-chain locksroot is empty gets zero chain-proxy
unlock calls, and when both sides' on-chain locksroots are empty the handler
returns exactly one warning log with no history lookups and no error. -/
theorem c4_unlock_idempotent (env : UnlockEnv)
    (ev : ContractSendChannelBatchUnlock) (cs : NettingChannelState)
    (hw : env.wal_set = true) (hcs : env.channel_state = some cs)
    (hne : cs.our_state.address ≠ cs.partner_state.address) :
    (cs.partner_state.onchain_locksroot = EMPTY_HASH →
      (handle_contract_send_channelunlock env ev).effects.countP
        (isProxyUnlockFrom cs.partner_state.address) = 0) ∧
    (cs.our_state.onchain_locksroot = EMPTY_HASH →
      (handle_contract_send_channelunlock env ev).effects.countP
        (isProxyUnlockFrom cs.our_state.address) = 0) ∧
    (cs.our_state.onchain_locksroot = EMPTY_HASH ∧
        cs.partner_state.onchain_locksroot = EMPTY_HASH →
      handle_contract_send_channelunlock env ev =
        ⟨[UnlockEffect.warningLog], none⟩) := by
  refine ⟨?_, ?_, ?_⟩
  · intro hpar
    by_cases hour : cs.our_state.onchain_locksroot = EMPTY_HASH
    · rw [handle_channelunlock_warning env ev cs hw hcs hour hpar,
        List.countP_eq_zero]
      intro a ha
      rw [List.mem_singleton] at ha
      subst ha
      simp [isProxyUnlockFrom]
    · rw [handle_channelunlock_partner_empty env ev cs hw hcs hour hpar,
        List.countP_eq_zero]
      intro eff hmem hp
      obtain ⟨r, locks, blk, heq⟩ := isProxyUnlockFrom_true hp
      subst heq
      obtain ⟨hs, _, _, _, _⟩ := unlock_our_side_spec env ev cs _ _ _ _ hmem
      exact hne hs.symm
  · intro hour
    by_cases hpar : cs.partner_state.onchain_locksroot = EMPTY_HASH
    · rw [handle_channelunlock_warning env ev cs hw hcs hour hpar,
        List.countP_eq_zero]
      intro a ha
      rw [List.mem_singleton] at ha
      subst ha
      simp [isProxyUnlockFrom]
    · cases herr : (unlock_partner_side env ev cs).error with
      | some e =>
        rw [handle_channelunlock_partner_err env ev cs e hw hcs hpar herr,
          List.countP_eq_zero]
        intro eff hmem hp
        obtain ⟨r, locks, blk, heq⟩ := isProxyUnlockFrom_true hp
        subst heq
        obtain ⟨hs, _, _, _, _⟩ := unlock_partner_side_spec env ev cs _ _ _ _ hmem
        exact hne hs
      | none =>
        rw [handle_channelunlock_our_empty env ev cs hw hcs hour hpar herr,
          List.countP_eq_zero]
        intro eff hmem hp
        obtain ⟨r, locks, blk, heq⟩ := isProxyUnlockFrom_true hp
        subst heq
        obtain ⟨hs, _, _, _, _⟩ := unlock_partner_side_spec env ev cs _ _ _ _ hmem
        exact hne hs
  · intro h
    exact handle_channelunlock_warning env ev cs hw hcs h.1 h.2

/-- Witness for C4 at a concrete environment with both on-chain locksroots
empty: one warning log, no lookups, no proxy calls, no error. -/
theorem c4_unlock_idempotent_witness :
    handle_contract_send_channelunlock envEmptyBoth evFixture =
      ⟨[UnlockEffect.warningLog], none⟩ ∧
    (handle_contract_send_channelunlock envEmptyBoth evFixture).effects.countP
      (isProxyUnlockFrom 2) = 0 :=
  have h := c4_unlock_idempotent envEmptyBoth evFixture csLiveEmptyBoth
    rfl rfl (by decide)
  ⟨h.2.2 ⟨rfl, rfl⟩, h.1 rfl⟩

/-- C5: a missing live channel state, or a failed history lookup for a side
whose on-chain locksroot is non-empty, raises the unrecoverable error and no
chain-proxy unlock call is issued for that side. -/
theorem c5_fatal_inconsistency (env : UnlockEnv)
    (ev : ContractSendChannelBatchUnlock) (cs : NettingChannelState)
    (hw : env.wal_set = true) :
    (env.channel_state = none →
      handle_contract_send_channelunlock env ev =
        ⟨[], some RaidenErr.unrecoverableError⟩) ∧
    (env.channel_state = some cs →
      cs.partner_state.onchain_locksroot ≠ EMPTY_HASH →
      env.get_state_change_with_balance_proof_by_locksroot
        cs.partner_state.onchain_locksroot cs.partner_state.address = none →
      handle_contract_send_channelunlock env ev =
        ⟨[UnlockEffect.lookupStateChangeByLocksroot
            cs.partner_state.onchain_locksroot cs.partner_state.address],
          some RaidenErr.unrecoverableError⟩) ∧
    (env.channel_state = some cs →
      cs.our_state.onchain_locksroot ≠ EMPTY_HASH →
      env.get_event_with_balance_proof_by_locksroot
        cs.our_state.onchain_locksroot cs.partner_state.address = none →
      cs.our_state.address ≠ cs.partner_state.address →
      (cs.partner_state.onchain_locksroot ≠ EMPTY_HASH →
        (unlock_partner_side env ev cs).error = none) →
      (handle_contract_send_channelunlock env ev).error =
        some RaidenErr.unrecoverableError ∧
      (handle_contract_send_channelunlock env ev).effects.countP
        (isProxyUnlockFrom cs.our_state.address) = 0) := by
  refine ⟨?_, ?_, ?_⟩
  · intro hcs
    exact handle_channelunlock_no_channel env ev hw hcs
  · intro hcs hpar hlook
    have hps : unlock_partner_side env ev cs =
        ⟨[UnlockEffect.lookupStateChangeByLocksroot
            cs.partner_state.onchain_locksroot cs.partner_state.address],
          some RaidenErr.unrecoverableError⟩ := by
      simp [unlock_partner_side, hlook]
    rw [handle_channelunlock_partner_err env ev cs RaidenErr.unrecoverableError
      hw hcs hpar (by rw [hps]), hps]
  · intro hcs hour hlook hne hperr
    have hos : unlock_our_side env ev cs =
        ⟨[UnlockEffect.lookupEventByLocksroot
            cs.our_state.onchain_locksroot cs.partner_state.address],
          some RaidenErr.unrecoverableError⟩ := by
      simp [unlock_our_side, hlook]
    by_cases hpar : cs.partner_state.onchain_locksroot = EMPTY_HASH
    · rw [handle_channelunlock_partner_empty env ev cs hw hcs hour hpar, hos]
      refine ⟨rfl, ?_⟩
      rw [List.countP_eq_zero]
      intro a ha
      rw [List.mem_singleton] at ha
      subst ha
      simp [isProxyUnlockFrom]
    · rw [handle_channelunlock_both env ev cs hw hcs hour hpar (hperr hpar), hos]
      refine ⟨rfl, ?_⟩
      rw [List.countP_eq_zero]
      intro eff hmem hp
      obtain ⟨r, locks, blk, heq⟩ := isProxyUnlockFrom_true hp
      subst heq
      rcases List.mem_append.mp hmem with h | h
      · obtain ⟨hs, _, _, _, _⟩ := unlock_partner_side_spec env ev cs _ _ _ _ h
        exact hne hs
      · rw [List.mem_singleton] at h
        exact absurd h (by simp)

/-- Witness for C5 at concrete environments: a missing channel state, a
failed partner-locksroot lookup, and a failed our-locksroot lookup each raise
the unrecoverable error without a proxy call for the affected side. -/
theorem c5_fatal_inconsistency_witness :
    handle_contract_send_channelunlock envNoChannel evFixture =
      ⟨[], some RaidenErr.unrecoverableError⟩ ∧
    handle_contract_send_channelunlock envNoStateChange evFixture =
      ⟨[UnlockEffect.lookupStateChangeByLocksroot 5 2],
        some RaidenErr.unrecoverableError⟩ ∧
    (handle_contract_send_channelunlock envNoEvent evFixture).error =
      some RaidenErr.unrecoverableError ∧
    (handle_contract_send_channelunlock envNoEvent evFixture).effects.countP
      (isProxyUnlockFrom 1) = 0 :=
  have ha := (c5_fatal_inconsistency envNoChannel evFixture csLive rfl).1 rfl
  have hb := (c5_fatal_inconsistency envNoStateChange evFixture csLive rfl).2.1
    rfl (by decide) rfl
  have hd := (c5_fatal_inconsistency envNoEvent evFixture csLiveBoth rfl).2.2
    rfl (by decide) rfl (by decide) (fun _ => by decide)
  ⟨ha, hb, hd.1, hd.2⟩

/-- C9: every chain-proxy unlock call carries a non-empty lock list — the
`unlock` helper asserts the batch-unlock lock set of the reconstructed end
state is non-empty, an empty set raises the assertion error (not the typed
unrecoverable error) before any chain-proxy call, and every proxy unlock
effect the handler ever emits has a non-empty lock list. -/
theorem c9_unlock_nonempty_locks (env : UnlockEnv)
    (ev : ContractSendChannelBatchUnlock) (cs : NettingChannelState)
    (rec : Record) (restored : NettingChannelState)
    (g : NettingChannelEndState → List Nat) (es : NettingChannelEndState)
    (s r blk : Nat) :
    (g es = [] → unlock g es s r blk = ⟨[], some RaidenErr.assertionError⟩) ∧
    (∀ s2 r2 locks blk2, UnlockEffect.proxyUnlock s2 r2 locks blk2 ∈
      (handle_contract_send_channelunlock env ev).effects → locks ≠ []) ∧
    (env.wal_set = true → env.channel_state = some cs →
      cs.partner_state.onchain_locksroot ≠ EMPTY_HASH →
      env.get_state_change_with_balance_proof_by_locksroot
        cs.partner_state.onchain_locksroot cs.partner_state.address = some rec →
      env.channel_state_until_state_change rec.state_change_identifier =
        some restored →
      ¬(restored.partner_state.address = ev.sender ∧
        (env.get_batch_unlock_gain restored).from_partner_locks = 0) →
      env.get_batch_unlock restored.partner_state = [] →
      handle_contract_send_channelunlock env ev =
        ⟨[UnlockEffect.lookupStateChangeByLocksroot
            cs.partner_state.onchain_locksroot cs.partner_state.address],
          some RaidenErr.assertionError⟩) := by
  refine ⟨?_, ?_, ?_⟩
  · intro hg
    simp [unlock, hg]
  · intro s2 r2 locks blk2 hmem
    obtain ⟨cs2, _, hside⟩ := handle_channelunlock_proxy_mem env ev s2 r2 locks blk2 hmem
    rcases hside with h | h
    · exact (unlock_partner_side_spec env ev cs2 _ _ _ _ h).2.2.2.1
    · exact (unlock_our_side_spec env ev cs2 _ _ _ _ h).2.2.2.1
  · intro hw hcs hpar hlk hre hskip hl
    have hps : unlock_partner_side env ev cs =
        ⟨[UnlockEffect.lookupStateChangeByLocksroot
            cs.partner_state.onchain_locksroot cs.partner_state.address],
          some RaidenErr.assertionError⟩ := by
      simp [unlock_partner_side, unlock, hlk, hre, hskip, hl]
    rw [handle_channelunlock_partner_err env ev cs RaidenErr.assertionError
      hw hcs hpar (by rw [hps]), hps]

/-- Witness for C9: an empty batch-unlock lock set aborts the `unlock` helper
with the assertion error, and the handler run over `envEmptyLocks` ends in
the assertion error right after the history lookup, with no proxy call. -/
theorem c9_unlock_nonempty_locks_witness :
    unlock (fun _ => []) ⟨0, 0⟩ 0 0 0 = ⟨[], some RaidenErr.assertionError⟩ ∧
    handle_contract_send_channelunlock envEmptyLocks evFixture =
      ⟨[UnlockEffect.lookupStateChangeByLocksroot 5 2],
        some RaidenErr.assertionError⟩ :=
  have h := c9_unlock_nonempty_locks envEmptyLocks evFixture csLive
    ⟨7, ⟨0, 0, 0⟩⟩ csRestored (fun _ => []) ⟨0, 0⟩ 0 0 0
  ⟨h.1 rfl, h.2.2 rfl rfl (by decide) rfl rfl (by decide) rfl⟩

/-- C2: in the settle handler, a side with a non-empty on-chain balance hash
contributes to the settle call exactly the balance-proof triple of the
history record found by that balance hash; a side with an empty on-chain
balance hash contributes `(0, 0, EMPTY_HASH)` and triggers no history lookup
for that side. -/
theorem c2_settle_amount_fidelity (env : SettleEnv)
    (ev : ContractSendChannelSettle) (pd : ParticipantsDetails) (B : Nat)
    (hw : env.wal_set = true)
    (hB : (if env.can_query_state_for_block ev.triggered_by_block_hash then
      ev.triggered_by_block_hash else env.blockhash_latest) = B)
    (hpd : env.detail_participants B = pd) :
    (∀ rec, pd.our_details.balance_hash ≠ EMPTY_HASH →
      env.get_event_with_balance_proof_by_balance_hash
        pd.our_details.balance_hash = some rec →
      ∀ t l lr pt pl plr blk,
        SettleEffect.proxySettle t l lr pt pl plr blk ∈
          (handle_contract_send_channelsettle env ev).effects →
        t = rec.balance_proof.transferred_amount ∧
        l = rec.balance_proof.locked_amount ∧
        lr = rec.balance_proof.locksroot) ∧
    (pd.our_details.balance_hash = EMPTY_HASH →
      (∀ t l lr pt pl plr blk,
        SettleEffect.proxySettle t l lr pt pl plr blk ∈
          (handle_contract_send_channelsettle env ev).effects →
        t = 0 ∧ l = 0 ∧ lr = EMPTY_HASH) ∧
      (handle_contract_send_channelsettle env ev).effects.countP
        isLookupEventByBalanceHash = 0) ∧
    (∀ rec, pd.partner_details.balance_hash ≠ EMPTY_HASH →
      env.get_state_change_with_balance_proof_by_balance_hash
        pd.partner_details.balance_hash pd.partner_details.address = some rec →
      ∀ t l lr pt pl plr blk,
        SettleEffect.proxySettle t l lr pt pl plr blk ∈
          (handle_contract_send_channelsettle env ev).effects →
        pt = rec.balance_proof.transferred_amount ∧
        pl = rec.balance_proof.locked_amount ∧
        plr = rec.balance_proof.locksroot) ∧
    (pd.partner_details.balance_hash = EMPTY_HASH →
      (∀ t l lr pt pl plr blk,
        SettleEffect.proxySettle t l lr pt pl plr blk ∈
          (handle_contract_send_channelsettle env ev).effects →
        pt = 0 ∧ pl = 0 ∧ plr = EMPTY_HASH) ∧
      (handle_contract_send_channelsettle env ev).effects.countP
        isLookupStateChangeByBalanceHash = 0) := by
  by_cases hob : pd.our_details.balance_hash = EMPTY_HASH
  · by_cases hpb : pd.partner_details.balance_hash = EMPTY_HASH
    · have hR : handle_contract_send_channelsettle env ev =
          ⟨[SettleEffect.proxySettle 0 0 EMPTY_HASH 0 0 EMPTY_HASH B], none⟩ := by
        simp [handle_contract_send_channelsettle, settle_partner_side, hw, hB,
          hpd, hob, hpb]
      refine ⟨?_, ?_, ?_, ?_⟩
      · intro rec hne
        exact absurd hob hne
      · intro _
        constructor
        · intro t l lr pt pl plr blk hmem
          simp only [hR] at hmem
          simp at hmem
          exact ⟨hmem.1, hmem.2.1, hmem.2.2.1⟩
        · simp only [hR]
          rw [List.countP_eq_zero]
          intro a ha
          rw [List.mem_singleton] at ha
          subst ha
          simp [isLookupEventByBalanceHash]
      · intro rec hne
        exact absurd hpb hne
      · intro _
        constructor
        · intro t l lr pt pl plr blk hmem
          simp only [hR] at hmem
          simp at hmem
          exact ⟨hmem.2.2.2.1, hmem.2.2.2.2.1, hmem.2.2.2.2.2.1⟩
        · simp only [hR]
          rw [List.countP_eq_zero]
          intro a ha
          rw [List.mem_singleton] at ha
          subst ha
          simp [isLookupStateChangeByBalanceHash]
    · cases hpl : env.get_state_change_with_balance_proof_by_balance_hash
          pd.partner_details.balance_hash pd.partner_details.address with
      | none =>
        have hR : handle_contract_send_channelsettle env ev =
            ⟨[SettleEffect.lookupStateChangeByBalanceHash
                pd.partner_details.balance_hash pd.partner_details.address,
              SettleEffect.criticalLog], some RaidenErr.unrecoverableError⟩ := by
          simp [handle_contract_send_channelsettle, settle_partner_side, hw, hB,
            hpd, hob, hpb, hpl]
        refine ⟨?_, ?_, ?_, ?_⟩
        · intro rec hne
          exact absurd hob hne
        · intro _
          constructor
          · intro t l lr pt pl plr blk hmem
            simp only [hR] at hmem
            simp at hmem
          · simp only [hR]
            rw [List.countP_eq_zero]
            intro a ha
            rcases List.mem_cons.mp ha with rfl | ha2
            · simp [isLookupEventByBalanceHash]
            · rw [List.mem_singleton] at ha2
              subst ha2
              simp [isLookupEventByBalanceHash]
        · intro rec hne hlk
          exact absurd hlk (by simp)
        · intro h
          exact absurd h hpb
      | some rec2 =>
        have hR : handle_contract_send_channelsettle env ev =
            ⟨[SettleEffect.lookupStateChangeByBalanceHash
                pd.partner_details.balance_hash pd.partner_details.address,
              SettleEffect.proxySettle 0 0 EMPTY_HASH
                rec2.balance_proof.transferred_amount
                rec2.balance_proof.locked_amount
                rec2.balance_proof.locksroot B], none⟩ := by
          simp [handle_contract_send_channelsettle, settle_partner_side, hw, hB,
            hpd, hob, hpb, hpl]
        refine ⟨?_, ?_, ?_, ?_⟩
        · intro rec hne
          exact absurd hob hne
        · intro _
          constructor
          · intro t l lr pt pl plr blk hmem
            simp only [hR] at hmem
            simp at hmem
            exact ⟨hmem.1, hmem.2.1, hmem.2.2.1⟩
          · simp only [hR]
            rw [List.countP_eq_zero]
            intro a ha
            rcases List.mem_cons.mp ha with rfl | ha2
            · simp [isLookupEventByBalanceHash]
            · rw [List.mem_singleton] at ha2
              subst ha2
              simp [isLookupEventByBalanceHash]
        · intro rec hne hlk
          injection hlk with hrec
          subst hrec
          intro t l lr pt pl plr blk hmem
          simp only [hR] at hmem
          simp at hmem
          exact ⟨hmem.2.2.2.1, hmem.2.2.2.2.1, hmem.2.2.2.2.2.1⟩
        · intro h
          exact absurd h hpb
  · cases hol : env.get_event_with_balance_proof_by_balance_hash
        pd.our_details.balance_hash with
    | none =>
      have hR : handle_contract_send_channelsettle env ev =
          ⟨[SettleEffect.lookupEventByBalanceHash pd.our_details.balance_hash,
            SettleEffect.criticalLog], some RaidenErr.unrecoverableError⟩ := by
        simp [handle_contract_send_channelsettle, hw, hB, hpd, hob, hol]
      refine ⟨?_, ?_, ?_, ?_⟩
      · intro rec hne hlk
        exact absurd hlk (by simp)
      · intro h
        exact absurd h hob
      · intro rec hne hlk t l lr pt pl plr blk hmem
        simp only [hR] at hmem
        simp at hmem
      · intro _
        constructor
        · intro t l lr pt pl plr blk hmem
          simp only [hR] at hmem
          simp at hmem
        · simp only [hR]
          rw [List.countP_eq_zero]
          intro a ha
          rcases List.mem_cons.mp ha with rfl | ha2
          · simp [isLookupStateChangeByBalanceHash]
          · rw [List.mem_singleton] at ha2
            subst ha2
            simp [isLookupStateChangeByBalanceHash]
    | some rec1 =>
      by_cases hpb : pd.partner_details.balance_hash = EMPTY_HASH
      · have hR : handle_contract_send_channelsettle env ev =
            ⟨[SettleEffect.lookupEventByBalanceHash pd.our_details.balance_hash,
              SettleEffect.proxySettle rec1.balance_proof.transferred_amount
                rec1.balance_proof.locked_amount rec1.balance_proof.locksroot
                0 0 EMPTY_HASH B], none⟩ := by
          simp [handle_contract_send_channelsettle, settle_partner_side, hw, hB,
            hpd, hob, hol, hpb]
        refine ⟨?_, ?_, ?_, ?_⟩
        · intro rec hne hlk
          injection hlk with hrec
          subst hrec
          intro t l lr pt pl plr blk hmem
          simp only [hR] at hmem
          simp at hmem
          exact ⟨hmem.1, hmem.2.1, hmem.2.2.1⟩
        · intro h
          exact absurd h hob
        · intro rec hne
          exact absurd hpb hne
        · intro _
          constructor
          · intro t l lr pt pl plr blk hmem
            simp only [hR] at hmem
            simp at hmem
            exact ⟨hmem.2.2.2.1, hmem.2.2.2.2.1, hmem.2.2.2.2.2.1⟩
          · simp only [hR]
            rw [List.countP_eq_zero]
            intro a ha
            rcases List.mem_cons.mp ha with rfl | ha2
            · simp [isLookupStateChangeByBalanceHash]
            · rw [List.mem_singleton] at ha2
              subst ha2
              simp [isLookupStateChangeByBalanceHash]
      · cases hpl : env.get_state_change_with_balance_proof_by_balance_hash
            pd.partner_details.balance_hash pd.partner_details.address with
        | none =>
          have hR : handle_contract_send_channelsettle env ev =
              ⟨[SettleEffect.lookupEventByBalanceHash pd.our_details.balance_hash,
                SettleEffect.lookupStateChangeByBalanceHash
                  pd.partner_details.balance_hash pd.partner_details.address,
                SettleEffect.criticalLog], some RaidenErr.unrecoverableError⟩ := by
            simp [handle_contract_send_channelsettle, settle_partner_side, hw,
              hB, hpd, hob, hol, hpb, hpl]
          refine ⟨?_, ?_, ?_, ?_⟩
          · intro rec hne hlk t l lr pt pl plr blk hmem
            simp only [hR] at hmem
            simp at hmem
          · intro h
            exact absurd h hob
          · intro rec hne hlk
            exact absurd hlk (by simp)
          · intro h
            exact absurd h hpb
        | some rec2 =>
          have hR : handle_contract_send_channelsettle env ev =
              ⟨[SettleEffect.lookupEventByBalanceHash pd.our_details.balance_hash,
                SettleEffect.lookupStateChangeByBalanceHash
                  pd.partner_details.balance_hash pd.partner_details.address,
                SettleEffect.proxySettle rec1.balance_proof.transferred_amount
                  rec1.balance_proof.locked_amount rec1.balance_proof.locksroot
                  rec2.balance_proof.transferred_amount
                  rec2.balance_proof.locked_amount rec2.balance_proof.locksroot
                  B], none⟩ := by
            simp [handle_contract_send_channelsettle, settle_partner_side, hw,
              hB, hpd, hob, hol, hpb, hpl]
          refine ⟨?_, ?_, ?_, ?_⟩
          · intro rec hne hlk
            injection hlk with hrec
            subst hrec
            intro t l lr pt pl plr blk hmem
            simp only [hR] at hmem
            simp at hmem
            exact ⟨hmem.1, hmem.2.1, hmem.2.2.1⟩
          · intro h
            exact absurd h hob
          · intro rec hne hlk
            injection hlk with hrec
            subst hrec
            intro t l lr pt pl plr blk hmem
            simp only [hR] at hmem
            simp at hmem
            exact ⟨hmem.2.2.2.1, hmem.2.2.2.2.1, hmem.2.2.2.2.2.1⟩
          · intro h
            exact absurd h hpb

/-- Witness for C2: with both balance hashes empty the handler performs no
history lookup, and with both non-empty the submitted triples equal the
looked-up balance-proof values. -/
theorem c2_settle_amount_fidelity_witness :
    (handle_contract_send_channelsettle senvEmptyBoth svEv).effects.countP
      isLookupEventByBalanceHash = 0 ∧
    (handle_contract_send_channelsettle senvEmptyBoth svEv).effects.countP
      isLookupStateChangeByBalanceHash = 0 ∧
    (10 = (⟨0, ⟨10, 20, 30⟩⟩ : Record).balance_proof.transferred_amount ∧
      20 = (⟨0, ⟨10, 20, 30⟩⟩ : Record).balance_proof.locked_amount ∧
      30 = (⟨0, ⟨10, 20, 30⟩⟩ : Record).balance_proof.locksroot) ∧
    (11 = (⟨0, ⟨11, 21, 31⟩⟩ : Record).balance_proof.transferred_amount ∧
      21 = (⟨0, ⟨11, 21, 31⟩⟩ : Record).balance_proof.locked_amount ∧
      31 = (⟨0, ⟨11, 21, 31⟩⟩ : Record).balance_proof.locksroot) :=
  have h1 := c2_settle_amount_fidelity senvEmptyBoth svEv
    ⟨⟨1, 0, 0, false, 0, 0, 0, 0⟩, ⟨2, 0, 0, false, 0, 0, 0, 0⟩⟩ 99 rfl rfl rfl
  have h2 := c2_settle_amount_fidelity senvBoth svEv
    ⟨⟨1, 0, 0, false, 3, 0, 0, 0⟩, ⟨2, 0, 0, false, 4, 0, 0, 0⟩⟩ 99 rfl rfl rfl
  ⟨(h1.2.1 rfl).2, (h1.2.2.2 rfl).2,
    h2.1 ⟨0, ⟨10, 20, 30⟩⟩ (by decide) rfl 10 20 30 11 21 31 99 (by decide),
    h2.2.2.1 ⟨0, ⟨11, 21, 31⟩⟩ (by decide) rfl 10 20 30 11 21 31 99 (by decide)⟩

/-- C7: the dispatcher maps every variant of the intent union to at most one
entry of the `elif` chain (no variant matches two handlers) and gives every
variant exactly one outcome: its unique handler, the uneventful no-op, or —
for any variant outside both sets — the error-logged-and-ignored outcome,
which returns normally rather than raising. -/
theorem c7_dispatch_completeness :
    ∀ e : EventType,
      dispatch_table.countP (fun p => p.1 == e) ≤ 1 ∧
      (∀ t1 t2, (e, t1) ∈ dispatch_table → (e, t2) ∈ dispatch_table → t1 = t2) ∧
      ((∃ t, (e, t) ∈ dispatch_table ∧
          on_raiden_event e = DispatchOutcome.handler t) ∨
        (e ∈ UNEVENTFUL_EVENTS ∧ on_raiden_event e = DispatchOutcome.uneventful) ∨
        ((∀ t, (e, t) ∉ dispatch_table) ∧ e ∉ UNEVENTFUL_EVENTS ∧
          on_raiden_event e = DispatchOutcome.unknownLogged)) := by
  intro e
  cases e <;> refine ⟨by decide, by decide, by decide⟩

/-- C6 counterexample: with an empty payment-status registry — no status
recorded for the intent's (target, payment identifier) — handling an
`EventPaymentSentSuccess` intent raises `KeyError` (the no-default `pop`),
so it does not succeed for every state of the registry. -/
theorem c6_paymentsent_counterexample :
    (handle_paymentsentsuccess [] 0 0).error = some RaidenErr.keyError := rfl

/-- C6 amended: handling `EventPaymentSentFailed` completes without error
for every registry state, including a missing status; handling
`EventPaymentSentSuccess` completes without error exactly when a status is
recorded for the intent's (target, payment identifier), and raises
`KeyError` otherwise. -/
theorem c6_paymentsent_error_behaviour (reg : PaymentStatusRegistry)
    (target payment_identifier : Nat) :
    (handle_paymentsentfailed reg target payment_identifier).error = none ∧
    ((handle_paymentsentsuccess reg target payment_identifier).error = none ↔
      reg.find? (fun p => p.1 == (target, payment_identifier)) ≠ none) := by
  cases h : reg.find? (fun p => p.1 == (target, payment_identifier)) with
  | none => simp [handle_paymentsentfailed, handle_paymentsentsuccess, h]
  | some p => simp [handle_paymentsentfailed, handle_paymentsentsuccess, h]

/-- C8: the resolver is consulted before any message is constructed or
signed; when it reports the secret as handled no message is sent, and
otherwise exactly one secret-request message is built, signed and sent. -/
theorem c8_secretrequest_resolver_first (f : SendSecretRequest → Nat)
    (ev : SendSecretRequest) :
    ((handle_send_secretrequest true f ev).head? =
        some MessageEffect.resolverQuery ∧
      handle_send_secretrequest true f ev = [MessageEffect.resolverQuery]) ∧
    ((handle_send_secretrequest false f ev).head? =
        some MessageEffect.resolverQuery ∧
      handle_send_secretrequest false f ev =
        [MessageEffect.resolverQuery, MessageEffect.signMessage (f ev),
          MessageEffect.send_async ev.queue_identifier (f ev)] ∧
      (handle_send_secretrequest false f ev).countP isSendAsync = 1) :=
  ⟨⟨rfl, rfl⟩, rfl, rfl, rfl⟩

/-- C10: immediately after construction the `secrethash` field of a
`SendSecretReveal` or `SendBalanceProof` event equals the sha256 digest of
its `secret` field, regardless of the `secrethash` value supplied to the
constructor (and the `secret` field itself is kept unchanged); the values
are immutable thereafter. -/
theorem c10_secrethash_is_sha256_of_secret (sha256 : List Nat → Nat)
    (recipient channel_identifier message_identifier payment_identifier
      token_address : Nat) (bp : BalanceProof) (secret : List Nat)
    (supplied : Nat) :
    (mkSendSecretReveal sha256 recipient channel_identifier message_identifier
      secret supplied).secrethash = sha256 secret ∧
    (mkSendSecretReveal sha256 recipient channel_identifier message_identifier
      secret supplied).secret = secret ∧
    (mkSendBalanceProof sha256 recipient channel_identifier message_identifier
      payment_identifier token_address bp secret supplied).secrethash =
      sha256 secret ∧
    (mkSendBalanceProof sha256 recipient channel_identifier message_identifier
      payment_identifier token_address bp secret supplied).secret = secret :=
  ⟨rfl, rfl, rfl, rfl⟩

end Raiden
